import Mathlib

/-!
# Calltender: shallow embedding and verification

A shallow embedding of the Calltender application's core logic:

* `normalizePhoneNumber` — the phone-number normalizer from `src/app/page.tsx`;
* the slot merge computation (`mergedOf`) from the `merged` memo in `page.tsx`;
* `startCall` — the placement guard in `page.tsx`;
* `handleSubmitDial` — the dialing decision of the second page variant;
* `callPOST` — the Twilio call route `POST` from `src/api/call/route.ts`;
* `demoPOST` — the demo variant of the call route;
* `planPOST` — the planning route `POST` from `src/app/api/plan/route.ts`;
* a field-collection state machine modelled from the design document.

JavaScript objects holding slot values (`Record<string, any>` with string or
null values) are modelled as association lists `List (String × Option String)`
with first-match lookup; `none` models a `null`/absent value. Object spread
`{...base, ...over}` and property assignment are modelled up to lookup
equivalence (key enumeration order is never observed by the verified code).
-/

/-- The whitespace predicate used by JavaScript's `String.prototype.trim`
(restricted to the ASCII whitespace characters; all data in this development
is ASCII). -/
def isWsChar (c : Char) : Bool :=
  c == ' ' || c == '\t' || c == '\n' || c == '\r' || c == '\x0b' || c == '\x0c'

/-- Model of JavaScript `s.trim()`: drop leading and trailing whitespace. -/
def jsTrim (s : String) : String :=
  String.mk (((s.data.dropWhile isWsChar).reverse.dropWhile isWsChar).reverse)

/-- Model of JavaScript `t.replace(/[^\d]/g, "")`: the digit run of `t`. -/
def stripDigits (s : String) : List Char :=
  s.data.filter fun c => c.isDigit

/-- Model of JavaScript `t.startsWith("+")`. -/
def hasPlusPrefix (s : String) : Bool :=
  s.data.head? == some '+'

/-- `normalizePhoneNumber` from `src/app/page.tsx` (lines 6–17).  Returns
`none` where the source returns `null`. -/
def normalizePhoneNumber (raw : String) : Option String :=
  let t := jsTrim raw
  if t = "" then none
  else if t = "911" then some "911"
  else
    let digits := stripDigits t
    if digits.length < 10 then none
    else if hasPlusPrefix t then some (String.mk ('+' :: digits))
    else if digits.length = 11 ∧ digits.head? = some '1' then some (String.mk ('+' :: digits))
    else if digits.length = 10 then some (String.mk ('+' :: '1' :: digits))
    else some (String.mk ('+' :: digits))

example : normalizePhoneNumber "911" = some "911" := by decide
example : normalizePhoneNumber "5551234567" = some "+15551234567" := by decide
example : normalizePhoneNumber "15551234567" = some "+15551234567" := by decide
example : normalizePhoneNumber "+44 20 7946 0958" = some "+442079460958" := by decide
example : normalizePhoneNumber "123" = none := by decide
example : normalizePhoneNumber "" = none := by decide
example : normalizePhoneNumber "555-123-4567" = some "+15551234567" := by decide

/-! ## Slot maps

`Record<string, any>` slot objects are association lists with first-match
lookup.  A value `none` models `null`; an absent key models `undefined`. -/

/-- A slot value: `none` models JavaScript `null`. -/
abbrev SlotVal := Option String

/-- A slot object: association list, first match wins on lookup. -/
abbrev Slots := List (String × SlotVal)

/-- Property read `m[k]`: `none` when the key is absent. -/
def getSlot (m : Slots) (k : String) : Option SlotVal :=
  (m.find? fun p => p.fst == k).map Prod.snd

/-- Object spread `{...base, ...over}` up to lookup equivalence: entries of
`over` shadow entries of `base`. -/
def spread (base over : Slots) : Slots :=
  over ++ base

/-- Property assignment `m[k] = v` up to lookup equivalence. -/
def setSlot (m : Slots) (k : String) (v : SlotVal) : Slots :=
  (k, v) :: m

/-- The test `slots[k] == null || String(slots[k]).trim() === ""` used to
decide that a required key is missing (`page.tsx` line 53). -/
def slotMissing (m : Slots) (k : String) : Bool :=
  match getSlot m k with
  | some (some s) => jsTrim s == ""
  | _ => true

/-- `ivr` object of a plan (`PlanResponse.ivr` in `page.tsx`). -/
structure IvrObj where
  autoNavigate : Bool
  sendDigits : List String
  languagePref : Option String
  deriving Repr, DecidableEq

/-- `safety` object of a plan (`PlanResponse.safety` in `page.tsx`). -/
structure SafetyObj where
  emergency : Bool
  warn : Option String
  deriving Repr, DecidableEq

/-- The `PlanResponse` type of `page.tsx` (lines 19–25), with the `ivr` and
`safety` shapes instantiated to the defaults' shape. -/
structure PlanResponse where
  intent : String
  slots : Slots
  required : List String
  ivr : IvrObj
  safety : SafetyObj
  deriving Repr, DecidableEq

/-- The fallback plan used when `plan` is `null` (`page.tsx` lines 37–43). -/
def basePlanDefault : PlanResponse :=
  { intent := ""
    slots := []
    required := ["target", "phone"]
    ivr := { autoNavigate := true, sendDigits := [], languagePref := none }
    safety := { emergency := false, warn := none } }

/-- The phone-normalization pass of the `merged` memo (`page.tsx` lines
46–50): `if (slots.phone) { const n = normalizePhoneNumber(String(slots.phone));
if (n) slots.phone = n; }`. -/
def normStep (slots : Slots) : Slots :=
  match getSlot slots "phone" with
  | some (some s) =>
    if s = "" then slots
    else
      match normalizePhoneNumber s with
      | some n => setSlot slots "phone" (some n)
      | none => slots
  | _ => slots

/-- Result of the `merged` memo. -/
structure MergedResult where
  intent : String
  slots : Slots
  required : List String
  ivr : IvrObj
  safety : SafetyObj
  missing : List String
  deriving Repr, DecidableEq

/-- The `merged` memo of `page.tsx` (lines 36–55): spread manual edits over
the planner slots, normalize the phone slot if present, recompute `missing`
from `required`. -/
def mergedOf (plan : Option PlanResponse) (manualSlots : Slots) : MergedResult :=
  let base := plan.getD basePlanDefault
  let slots := normStep (spread base.slots manualSlots)
  { intent := base.intent
    slots := slots
    required := base.required
    ivr := base.ivr
    safety := base.safety
    missing := base.required.filter fun k => slotMissing slots k }

example :
    (mergedOf
      (some { basePlanDefault with required := ["target", "phone", "when"] })
      [("phone", some "+15551234567")]).missing = ["target", "when"] := by decide

/-! ## Placement triggers in the two page variants -/

/-- `startCall` from `page.tsx` (lines 82–100), reduced to its observable
effect: `none` when the guard `if (!merged || merged.missing.length) return`
fires (no request is sent), otherwise `some to` where `to` is the value of
`merged.slots.phone` put in the request body. -/
def startCall (m : MergedResult) : Option (Option SlotVal) :=
  if m.missing.length ≠ 0 then none
  else some (getSlot m.slots "phone")

/-- The dialing decision of `handleSubmit` in the second page variant
(`page.tsx`, second document, lines 364–391): `phone` is
`slots?.phone ? String(slots.phone).trim() : ""`; the Twilio call is sent
with `to = phone` exactly when `phone` is truthy, with no normalization. -/
def handleSubmitDial (slots : Slots) : Option String :=
  let phone :=
    match getSlot slots "phone" with
    | some (some s) => if s = "" then "" else jsTrim s
    | _ => ""
  if phone = "" then none else some phone

/-! ## The call route (`src/api/call/route.ts`) -/

/-- JavaScript truthiness of a `string | undefined` value. -/
def strTruthy : Option String → Bool
  | none => false
  | some s => s != ""

/-- JavaScript `a || b` for a `string | undefined` left operand and string
right operand. -/
def jsOrS (a : Option String) (b : String) : String :=
  match a with
  | some s => if s = "" then b else s
  | none => b

/-- Environment configuration read by the call route. -/
structure CallEnv where
  accountSid : Option String
  authToken : Option String
  fromNumber : Option String
  voiceUrl : Option String
  deriving Repr, DecidableEq

/-- The `CallRequest` body type of the call route. -/
structure CallReqBody where
  toNumber : Option String
  callerFrom : Option String
  url : Option String
  deriving Repr, DecidableEq

/-- Outcome of `await req.json()`: a thrown parse error (with its message)
or a parsed body. -/
inductive ReqParse where
  | fail (msg : String)
  | ok (body : CallReqBody)
  deriving Repr, DecidableEq

/-- The payload extracted from the Twilio response: plain text when the
content type is not JSON, otherwise a JSON object with optional `sid`,
`status` and `message` fields. -/
inductive TwPayload where
  | text (s : String)
  | json (sid status message : Option String)
  deriving Repr, DecidableEq

/-- Outcome of the `fetch` to Twilio: a thrown network error (with its
message) or a response with `ok` flag, status code and payload. -/
inductive TwFetch where
  | thrown (msg : String)
  | resp (ok : Bool) (code : Nat) (payload : TwPayload)
  deriving Repr, DecidableEq

/-- A JSON response of the call route: HTTP status plus the body fields the
route ever emits (`none` models an absent field). -/
structure CallHttp where
  httpStatus : Nat
  sid : Option String
  status : String
  toNumber : Option String
  callerFrom : Option String
  error : Option String
  deriving Repr, DecidableEq

/-- `payload?.sid ?? null` guarded by `typeof payload === "string"`. -/
def twSid : TwPayload → Option String
  | .text _ => none
  | .json sid _ _ => sid

/-- `payload?.status ?? "queued"` guarded by `typeof payload === "string"`. -/
def twStatus : TwPayload → String
  | .text _ => "queued"
  | .json _ st _ => st.getD "queued"

/-- `typeof payload === "string" ? payload : payload?.message || "Twilio call
failed."`. -/
def twErrMsg : TwPayload → String
  | .text s => s
  | .json _ _ m => jsOrS m "Twilio call failed."

/-- `POST` of `src/api/call/route.ts` (lines 11–83), as a function of the
environment, the body-parse outcome and the Twilio fetch outcome. The
credentials check runs before the body is parsed; any thrown error lands in
the final catch, which answers 400 `invalid-request`. -/
def callPOST (env : CallEnv) (parse : ReqParse) (fetchR : TwFetch) : CallHttp :=
  if ¬ strTruthy env.accountSid ∨ ¬ strTruthy env.authToken then
    { httpStatus := 500, sid := none, status := "missing-credentials"
      toNumber := none, callerFrom := none
      error := some "Twilio credentials are not configured." }
  else
    match parse with
    | .fail msg =>
      { httpStatus := 400, sid := none, status := "invalid-request"
        toNumber := none, callerFrom := none, error := some msg }
    | .ok body =>
      let toNumber := body.toNumber.map jsTrim
      let from' := jsTrim (jsOrS body.callerFrom (jsOrS env.fromNumber ""))
      if ¬ strTruthy toNumber then
        { httpStatus := 400, sid := none, status := "missing-destination"
          toNumber := none, callerFrom := none
          error := some "Destination phone required." }
      else if from' = "" then
        { httpStatus := 400, sid := none, status := "missing-source"
          toNumber := none, callerFrom := none
          error := some "Set TWILIO_FROM_NUMBER or include `from`." }
      else
        match fetchR with
        | .thrown msg =>
          { httpStatus := 400, sid := none, status := "invalid-request"
            toNumber := none, callerFrom := none, error := some msg }
        | .resp ok code payload =>
          if ¬ ok then
            { httpStatus := code, sid := none, status := "twilio-error"
              toNumber := none, callerFrom := none, error := some (twErrMsg payload) }
          else
            { httpStatus := 200, sid := twSid payload, status := twStatus payload
              toNumber := toNumber, callerFrom := some from', error := none }

/-- `POST` of the demo variant of the call route (`src/api/call/route.ts`,
second document, lines 90–110): no credentials check, no provider call; a
fixed `sid = "demo-call"` on any non-empty destination. -/
def demoPOST (parse : ReqParse) : CallHttp :=
  match parse with
  | .fail msg =>
    { httpStatus := 400, sid := none, status := "invalid-request"
      toNumber := none, callerFrom := none, error := some msg }
  | .ok body =>
    let toNumber := body.toNumber.map jsTrim
    if ¬ strTruthy toNumber then
      { httpStatus := 400, sid := none, status := "missing-destination"
        toNumber := none, callerFrom := none
        error := some "Destination phone required." }
    else
      { httpStatus := 200, sid := some "demo-call", status := "queued"
        toNumber := toNumber, callerFrom := none, error := none }



/-! ## The planning route (`src/app/api/plan/route.ts`) -/

/-- A successfully `JSON.parse`d planner payload: each field may be absent
(`none`).  `requiredArr = none` also covers a present but non-array value,
since the route tests `Array.isArray(parsed.required)`. -/
structure PlanBody where
  intent : Option String
  slots : Option Slots
  requiredArr : Option (List String)
  ivr : Option IvrObj
  safety : Option SafetyObj
  deriving Repr, DecidableEq

/-- Outcome of the planning request: any exception anywhere in the handler
(body parse, missing API key, model call failure) lands in the outer catch
(`thrown`); otherwise the model replied and `JSON.parse` of its text either
failed (`replied none`) or produced a payload (`replied (some body)`). -/
inductive PlanOutcome where
  | thrown
  | replied (parsed : Option PlanBody)
  deriving Repr, DecidableEq

/-- A JSON body emitted by the planning route: `intent` may be absent when
the parsed payload lacked it; `ivr`/`safety` are absent exactly in the outer
catch branch, which emits neither. -/
structure PlanJson where
  intent : Option String
  slots : Slots
  required : List String
  ivr : Option IvrObj
  safety : Option SafetyObj
  deriving Repr, DecidableEq

/-- A response of the planning route. -/
structure PlanHttp where
  httpStatus : Nat
  body : PlanJson
  deriving Repr, DecidableEq

/-- `parsed.ivr || { autoNavigate: true, sendDigits: [] }`. -/
def defaultIvr : IvrObj :=
  { autoNavigate := true, sendDigits := [], languagePref := none }

/-- `parsed.safety || { emergency: false, warn: null }`. -/
def defaultSafety : SafetyObj :=
  { emergency := false, warn := none }

/-- The `JSON.parse` fallback of the plan route (lines 86–90): used when the
model's text is unparsable. -/
def parseFallback : PlanBody :=
  { intent := some "Make the requested call and achieve the stated outcome."
    slots := some []
    requiredArr := some ["target", "phone"]
    ivr := none
    safety := none }

/-- The post-processing of the plan route (lines 94–97): ensure the shapes
exist. -/
def postProcess (p : PlanBody) : PlanJson :=
  { intent := p.intent
    slots := p.slots.getD []
    required := p.requiredArr.getD ["target", "phone"]
    ivr := some (p.ivr.getD defaultIvr)
    safety := some (p.safety.getD defaultSafety) }

/-- `POST` of `src/app/api/plan/route.ts` (lines 4–107) as a function of the
collaborator outcome. -/
def planPOST (o : PlanOutcome) : PlanHttp :=
  match o with
  | .thrown =>
    { httpStatus := 200
      body := { intent := some "", slots := [], required := ["target", "phone"]
                ivr := none, safety := none } }
  | .replied parsed =>
    { httpStatus := 200
      body := postProcess (parsed.getD parseFallback) }

/-- The safe default plan exactly as the design document states it (for
comparison with the route's fallback outputs): `{ intent: "Make the requested
call and achieve the stated outcome.", slots: {}, required:
["target","phone"], ivr: {autoNavigate:true, sendDigits:[]}, safety:
{emergency:false, warn:null} }`. -/
def specSafeDefaultPlan : PlanJson :=
  { intent := some "Make the requested call and achieve the stated outcome."
    slots := []
    required := ["target", "phone"]
    ivr := some { autoNavigate := true, sendDigits := [], languagePref := none }
    safety := some { emergency := false, warn := none } }

/-! ## Field-collection state machine

Modelled from the spec: the sequential Field Collection State Machine of
design §4.3 (`start`, `submitField`, `cancel` over `Idle`/`AwaitingField`
states) has no counterpart under `src/` — the first page variant renders all
missing fields at once.  The definitions below follow the design document's
transition descriptions word for word. -/

/-- Modelled from the spec: a CollectionSession — the plan under collection,
the `missing` list computed at `start`, and the values collected so far. -/
structure FCSession where
  plan : PlanResponse
  missing : List String
  collected : List (String × String)
  deriving Repr, DecidableEq

/-- Modelled from the spec: the state machine's states, `Idle` or
`AwaitingField(field)` with its session. -/
inductive FCState where
  | idle
  | awaitingField (field : String) (s : FCSession)
  deriving Repr, DecidableEq

/-- Modelled from the spec: the observable effect of a transition — nothing,
a placement request carrying the effective slots, or a surfaced validation
error. -/
inductive FCEffect where
  | silent
  | place (slots : Slots)
  | validationError
  deriving Repr, DecidableEq

/-- Modelled from the spec: "recomputes the remaining pending list as
`missing` minus keys now present in `collected`". -/
def remainingOf (missing : List String) (collected : List (String × String)) : List String :=
  missing.filter fun k => (collected.find? fun p => p.fst == k).isNone

/-- Modelled from the spec: `start(plan)` computes `missing` via the merge
engine; if empty, transitions straight to placement; if non-empty, enters
`AwaitingField(missing[0])` with an empty `collected` mapping. -/
def fcStart (plan : PlanResponse) : FCState × FCEffect :=
  let r := mergedOf (some plan) []
  match r.missing with
  | [] => (.idle, .place r.slots)
  | k :: _ =>
    (.awaitingField k { plan := plan, missing := r.missing, collected := [] }, .silent)

/-- Modelled from the spec: `submitField(value)` — valid only in
`AwaitingField`; rejects a value that is empty after trimming; otherwise
records `collected[field] = trimmed value`, recomputes the remaining pending
list, and either advances to the first remaining field or triggers placement
with `plan.slots` overridden by `collected` and returns to `Idle`. -/
def submitField (st : FCState) (value : String) : FCState × FCEffect :=
  match st with
  | .idle => (.idle, .validationError)
  | .awaitingField f s =>
    let v := jsTrim value
    if v = "" then (.awaitingField f s, .validationError)
    else
      let collected := (f, v) :: s.collected
      match remainingOf s.missing collected with
      | k :: _ =>
        (.awaitingField k { s with collected := collected }, .silent)
      | [] =>
        (.idle, .place (spread s.plan.slots (collected.map fun p => (p.fst, some p.snd))))

/-- Modelled from the spec: `cancel()` discards the session and returns to
`Idle` without placing a call. -/
def fcCancel (st : FCState) : FCState × FCEffect :=
  match st with
  | .idle => (.idle, .silent)
  | .awaitingField _ _ => (.idle, .silent)

/-- A concrete plan used to exercise the state machine: both required slots
are initially unmet. -/
def pizzaPlan : PlanResponse :=
  { intent := "Order a pizza"
    slots := []
    required := ["target", "phone"]
    ivr := { autoNavigate := true, sendDigits := [], languagePref := none }
    safety := { emergency := false, warn := none } }

/-- The collection session right after `start(pizzaPlan)`. -/
def pizzaSession0 : FCSession :=
  { plan := pizzaPlan, missing := ["target", "phone"], collected := [] }

/-- The collection session after answering `target`. -/
def pizzaSession1 : FCSession :=
  { plan := pizzaPlan, missing := ["target", "phone"]
    collected := [("target", "Pizza Palace")] }

/-! ## Helper lemmas -/

theorem getSlot_cons (a : String) (v : SlotVal) (m : Slots) (k : String) :
    getSlot ((a, v) :: m) k = if a = k then some v else getSlot m k := by
  by_cases h : a = k
  · simp [getSlot, List.find?_cons_of_pos, h]
  · simp [getSlot, List.find?_cons_of_neg, h]

theorem jsTrim_mk_plus_ne_empty (l : List Char) :
    jsTrim (String.mk ('+' :: l)) ≠ "" := by
  intro h
  have hdata : ((((String.mk ('+' :: l)).data.dropWhile
      isWsChar).reverse.dropWhile isWsChar).reverse) = [] :=
    congrArg String.data h
  rw [show (String.mk ('+' :: l)).data = '+' :: l from rfl] at hdata
  rw [show ('+' :: l).dropWhile isWsChar = '+' :: l from by
    rw [List.dropWhile_cons]; simp [isWsChar]] at hdata
  rw [List.reverse_eq_nil_iff, List.dropWhile_eq_nil_iff] at hdata
  have hplus : isWsChar '+' = true := by
    refine hdata '+' ?_
    simp
  simp [isWsChar] at hplus

theorem normalize_trim_ne (s n : String) (h : normalizePhoneNumber s = some n) :
    jsTrim s ≠ "" := by
  intro he
  simp [normalizePhoneNumber, he] at h

theorem normalize_out_trim_ne (s n : String) (h : normalizePhoneNumber s = some n) :
    jsTrim n ≠ "" := by
  simp only [normalizePhoneNumber] at h
  split at h
  · exact absurd h (by simp)
  · split at h
    · rw [Option.some_inj] at h
      subst h
      decide
    · split at h
      · exact absurd h (by simp)
      · split at h
        · rw [Option.some_inj] at h
          subst h
          exact jsTrim_mk_plus_ne_empty _
        · split at h
          · rw [Option.some_inj] at h
            subst h
            exact jsTrim_mk_plus_ne_empty _
          · split at h
            · rw [Option.some_inj] at h
              subst h
              exact jsTrim_mk_plus_ne_empty _
            · rw [Option.some_inj] at h
              subst h
              exact jsTrim_mk_plus_ne_empty _

theorem slotMissing_normStep (m : Slots) (k : String) :
    slotMissing (normStep m) k = slotMissing m k := by
  unfold normStep
  cases hp : getSlot m "phone" with
  | none => rfl
  | some v =>
    cases v with
    | none => rfl
    | some s =>
      by_cases hs : s = ""
      · simp [hs]
      · simp only [if_neg hs]
        cases hn : normalizePhoneNumber s with
        | none => rfl
        | some n =>
          show slotMissing (setSlot m "phone" (some n)) k = slotMissing m k
          unfold slotMissing setSlot
          rw [getSlot_cons]
          by_cases hk : "phone" = k
          · subst hk
            rw [if_pos rfl, hp]
            have h1 := normalize_out_trim_ne s n hn
            have h2 := normalize_trim_ne s n hn
            simp [h1, h2]
          · rw [if_neg hk]

/-! ## Claim theorems -/

/-- C5: for every planner plan and override mapping, `merged` computes
`missing` as exactly the keys of `required` whose effective value (overrides
spread over planner slots, override winning on collision) is absent/null or
trims to the empty string, preserving the order of `required`; and with
`required = ["target","phone","when"]` and only `phone` supplied, `missing`
is `["target","when"]` in that order. -/
theorem C5_missing_characterization :
    (∀ (base over : Slots) (k : String),
      getSlot (spread base over) k =
        match getSlot over k with
        | some v => some v
        | none => getSlot base k)
    ∧ (∀ (plan : Option PlanResponse) (manualSlots : Slots),
      (mergedOf plan manualSlots).missing =
        ((plan.getD basePlanDefault).required).filter
          fun k => slotMissing (spread (plan.getD basePlanDefault).slots manualSlots) k)
    ∧ (mergedOf
        (some { basePlanDefault with required := ["target", "phone", "when"] })
        [("phone", some "+15551234567")]).missing = ["target", "when"] := by
  refine ⟨?_, ?_, by decide⟩
  · intro base over k
    unfold spread getSlot
    rw [List.find?_append]
    cases hov : (over.find? fun p => p.fst == k) with
    | none => simp [getSlot, hov, Option.or]
    | some p => simp [getSlot, hov, Option.or]
  · intro plan manualSlots
    show ((plan.getD basePlanDefault).required).filter _ = _
    exact List.filter_congr fun k _ => slotMissing_normStep _ k

/-- C6: re-merging the merged slots with no new overrides yields the same
`missing` list — merging is idempotent with respect to `missing`. -/
theorem C6_merge_idempotent_missing :
    ∀ (plan : Option PlanResponse) (manualSlots : Slots),
      (mergedOf
        (some { plan.getD basePlanDefault with
                  slots := (mergedOf plan manualSlots).slots }) []).missing
        = (mergedOf plan manualSlots).missing := by
  intro plan manualSlots
  show ((plan.getD basePlanDefault).required).filter _ = _
  exact List.filter_congr fun k _ => slotMissing_normStep _ k

/-- C3: the claim that normalization is always applied before placement fails
in the second page variant: a planner plan whose `phone` slot is
`"555-123-4567"` is dialed raw as `"555-123-4567"`, although the Normalizer
would canonicalize it to `"+15551234567"`. -/
theorem C3_raw_phone_dialed :
    handleSubmitDial [("phone", some "555-123-4567")] = some "555-123-4567"
    ∧ normalizePhoneNumber "555-123-4567" = some "+15551234567"
    ∧ ("555-123-4567" : String) ≠ "+15551234567" := by
  decide

/-- C2 (counterexample): the planning route's outer catch branch does not
return the spec's safe default plan — its body has `intent = ""` and no
`ivr`/`safety` fields. -/
theorem C2_thrown_not_safe_default :
    planPOST .thrown ≠ { httpStatus := 200, body := specSafeDefaultPlan } := by
  decide

/-- C2 (amended): the planning route always answers HTTP 200; an unparsable
model payload yields exactly the spec's safe default plan, while a thrown
failure (unreachable collaborator, malformed request) yields 200 with the
minimal body `{ intent: "", slots: {}, required: ["target","phone"] }`. -/
theorem C2_plan_always_200 :
    (∀ o : PlanOutcome, (planPOST o).httpStatus = 200)
    ∧ planPOST (.replied none) = { httpStatus := 200, body := specSafeDefaultPlan }
    ∧ planPOST .thrown =
      { httpStatus := 200
        body := { intent := some "", slots := [], required := ["target", "phone"]
                  ivr := none, safety := none } } := by
  refine ⟨?_, by decide, by decide⟩
  intro o
  cases o <;> rfl

/-- C4: case analysis of the normalizer — empty-after-trim input fails, the
literal `"911"` passes through, a digit run shorter than 10 fails, a
`+`-prefixed input keeps `+` plus its stripped digits, an 11-digit run
starting with `1` gets `+`, a 10-digit run gets `+1`, any other long run
gets `+`; together with the concrete spec examples. -/
theorem C4_normalizer_cases :
    (∀ r : String, jsTrim r = "" → normalizePhoneNumber r = none)
    ∧ normalizePhoneNumber "911" = some "911"
    ∧ (∀ r : String, jsTrim r ≠ "" → jsTrim r ≠ "911" →
        (stripDigits (jsTrim r)).length < 10 → normalizePhoneNumber r = none)
    ∧ (∀ r : String, jsTrim r ≠ "" → jsTrim r ≠ "911" →
        ¬ (stripDigits (jsTrim r)).length < 10 →
        hasPlusPrefix (jsTrim r) = true →
        normalizePhoneNumber r = some (String.mk ('+' :: stripDigits (jsTrim r))))
    ∧ (∀ r : String, jsTrim r ≠ "" → jsTrim r ≠ "911" →
        ¬ (stripDigits (jsTrim r)).length < 10 →
        hasPlusPrefix (jsTrim r) = false →
        (stripDigits (jsTrim r)).length = 11 →
        (stripDigits (jsTrim r)).head? = some '1' →
        normalizePhoneNumber r = some (String.mk ('+' :: stripDigits (jsTrim r))))
    ∧ (∀ r : String, jsTrim r ≠ "" → jsTrim r ≠ "911" →
        ¬ (stripDigits (jsTrim r)).length < 10 →
        hasPlusPrefix (jsTrim r) = false →
        ¬ ((stripDigits (jsTrim r)).length = 11
            ∧ (stripDigits (jsTrim r)).head? = some '1') →
        (stripDigits (jsTrim r)).length = 10 →
        normalizePhoneNumber r = some (String.mk ('+' :: '1' :: stripDigits (jsTrim r))))
    ∧ (∀ r : String, jsTrim r ≠ "" → jsTrim r ≠ "911" →
        ¬ (stripDigits (jsTrim r)).length < 10 →
        hasPlusPrefix (jsTrim r) = false →
        ¬ ((stripDigits (jsTrim r)).length = 11
            ∧ (stripDigits (jsTrim r)).head? = some '1') →
        (stripDigits (jsTrim r)).length ≠ 10 →
        normalizePhoneNumber r = some (String.mk ('+' :: stripDigits (jsTrim r))))
    ∧ normalizePhoneNumber "5551234567" = some "+15551234567"
    ∧ normalizePhoneNumber "15551234567" = some "+15551234567"
    ∧ normalizePhoneNumber "123" = none
    ∧ normalizePhoneNumber "" = none := by
  refine ⟨?_, by decide, ?_, ?_, ?_, ?_, ?_, by decide, by decide, by decide, by decide⟩
  · intro r h1
    simp [normalizePhoneNumber, h1]
  · intro r h1 h2 h3
    simp [normalizePhoneNumber, h1, h2, h3]
  · intro r h1 h2 h3 h4
    simp [normalizePhoneNumber, h1, h2, h3, h4]
  · intro r h1 h2 h3 h4 h5 h6
    simp [normalizePhoneNumber, h1, h2, h3, h4, h5, h6]
  · intro r h1 h2 h3 h4 h5 h6
    simp [normalizePhoneNumber, h1, h2, h3, h4, h5, h6]
  · intro r h1 h2 h3 h4 h5 h6
    simp [normalizePhoneNumber, h1, h2, h3, h4, h5, h6]

/-- Witness for C4: the conditional clauses applied at concrete inputs. -/
theorem C4_normalizer_cases_witness :
    normalizePhoneNumber "  " = none
    ∧ normalizePhoneNumber "12-34" = none
    ∧ normalizePhoneNumber "+44 20 7946 0958"
        = some (String.mk ('+' :: stripDigits (jsTrim "+44 20 7946 0958")))
    ∧ normalizePhoneNumber "1 555 123 4567"
        = some (String.mk ('+' :: stripDigits (jsTrim "1 555 123 4567")))
    ∧ normalizePhoneNumber "555 123 4567"
        = some (String.mk ('+' :: '1' :: stripDigits (jsTrim "555 123 4567")))
    ∧ normalizePhoneNumber "555 123 4567 890"
        = some (String.mk ('+' :: stripDigits (jsTrim "555 123 4567 890")))
    ∧ String.mk ('+' :: stripDigits (jsTrim "+44 20 7946 0958")) = "+442079460958"
    ∧ String.mk ('+' :: '1' :: stripDigits (jsTrim "555 123 4567")) = "+15551234567" :=
  ⟨C4_normalizer_cases.1 "  " (by decide),
   C4_normalizer_cases.2.2.1 "12-34" (by decide) (by decide) (by decide),
   C4_normalizer_cases.2.2.2.1 "+44 20 7946 0958"
     (by decide) (by decide) (by decide) (by decide),
   C4_normalizer_cases.2.2.2.2.1 "1 555 123 4567"
     (by decide) (by decide) (by decide) (by decide) (by decide) (by decide),
   C4_normalizer_cases.2.2.2.2.2.1 "555 123 4567"
     (by decide) (by decide) (by decide) (by decide) (by decide) (by decide),
   C4_normalizer_cases.2.2.2.2.2.2.1 "555 123 4567 890"
     (by decide) (by decide) (by decide) (by decide) (by decide) (by decide),
   by decide, by decide⟩

/-- C7: placement is attempted exactly when every key in `required` has a
non-empty (after trimming) effective value — `startCall` is a no-op whenever
`missing` is non-empty — and a plan with empty `required` proceeds directly
to placement. -/
theorem C7_placement_only_when_complete :
    ∀ (plan : Option PlanResponse) (manualSlots : Slots),
      ((startCall (mergedOf plan manualSlots)).isSome = true ↔
        ∀ k ∈ (plan.getD basePlanDefault).required,
          slotMissing (mergedOf plan manualSlots).slots k = false)
      ∧ ((plan.getD basePlanDefault).required = [] →
          (startCall (mergedOf plan manualSlots)).isSome = true) := by
  intro plan manualSlots
  have hmiss : (mergedOf plan manualSlots).missing
      = ((plan.getD basePlanDefault).required).filter
          (fun k => slotMissing (mergedOf plan manualSlots).slots k) := rfl
  have hiff : (startCall (mergedOf plan manualSlots)).isSome = true ↔
      ∀ k ∈ (plan.getD basePlanDefault).required,
        slotMissing (mergedOf plan manualSlots).slots k = false := by
    unfold startCall
    by_cases hc : (mergedOf plan manualSlots).missing.length = 0
    · rw [if_neg (by simp [hc])]
      simp only [Option.isSome_some]
      constructor
      · intro _ k hk
        have hnil : (mergedOf plan manualSlots).missing = [] :=
          List.length_eq_zero.mp hc
        rw [hmiss] at hnil
        have := List.filter_eq_nil_iff.mp hnil k hk
        simpa using this
      · intro _
        trivial
    · rw [if_pos hc]
      simp only [Option.isSome_none]
      constructor
      · intro h
        exact absurd h (by simp)
      · intro hall
        exfalso
        apply hc
        rw [List.length_eq_zero, hmiss, List.filter_eq_nil_iff]
        intro k hk
        simp [hall k hk]
  refine ⟨hiff, fun hreq => hiff.mpr ?_⟩
  rw [hreq]
  intro k hk
  exact absurd hk (List.not_mem_nil k)

/-- Witness for C7: with both required slots supplied, `startCall` sends the
placement request. -/
theorem C7_placement_only_when_complete_witness :
    (startCall (mergedOf none
      [("phone", some "5551234567"), ("target", some "Pizza Palace")])).isSome = true :=
  (C7_placement_only_when_complete none
    [("phone", some "5551234567"), ("target", some "Pizza Palace")]).1.mpr (by decide)

/-- C8: an accepted `submitField` records the trimmed value, advances the
prompt to the first remaining missing field, and, when none remain, triggers
placement with the plan's slots overridden by the collected values and
returns to `Idle`. -/
theorem C8_submitField_progression :
    ∀ (f : String) (s : FCSession) (value : String),
      jsTrim value ≠ "" →
      (∀ (k : String) (rest : List String),
        remainingOf s.missing ((f, jsTrim value) :: s.collected) = k :: rest →
        submitField (.awaitingField f s) value =
          (.awaitingField k { s with collected := (f, jsTrim value) :: s.collected },
           .silent))
      ∧ (remainingOf s.missing ((f, jsTrim value) :: s.collected) = [] →
        submitField (.awaitingField f s) value =
          (.idle, .place (spread s.plan.slots
            (((f, jsTrim value) :: s.collected).map fun p => (p.fst, some p.snd))))) := by
  intro f s value hv
  constructor
  · intro k rest hr
    simp only [submitField, if_neg hv, hr]
  · intro hr
    simp only [submitField, if_neg hv, hr]

/-- Witness for C8: starting from `missing = ["target","phone"]`,
`submitField("Pizza Palace")` moves the prompt to `"phone"`, and
`submitField("+15551234567")` triggers placement and returns to `Idle`. -/
theorem C8_submitField_progression_witness :
    submitField (.awaitingField "target" pizzaSession0) "Pizza Palace" =
      (.awaitingField "phone"
        { plan := pizzaPlan, missing := ["target", "phone"]
          collected := [("target", "Pizza Palace")] }, .silent)
    ∧ submitField (.awaitingField "phone" pizzaSession1) "+15551234567" =
      (.idle, .place
        [("phone", some "+15551234567"), ("target", some "Pizza Palace")]) := by
  have h1 := (C8_submitField_progression "target" pizzaSession0 "Pizza Palace"
    (by decide)).1 "phone" [] (by decide)
  have h2 := (C8_submitField_progression "phone" pizzaSession1 "+15551234567"
    (by decide)).2 (by decide)
  refine ⟨?_, ?_⟩
  · rw [h1]
    decide
  · rw [h2]
    decide

/-- C10: whenever the effective `phone` slot is present, merging replaces it
with the Normalizer's canonical form when normalization succeeds, and leaves
the raw value completely unchanged when normalization fails. -/
theorem C10_phone_never_dropped :
    ∀ (plan : Option PlanResponse) (manualSlots : Slots) (s : String),
      getSlot (spread (plan.getD basePlanDefault).slots manualSlots) "phone"
        = some (some s) →
      (∀ n, normalizePhoneNumber s = some n →
        getSlot (mergedOf plan manualSlots).slots "phone" = some (some n))
      ∧ (normalizePhoneNumber s = none →
        getSlot (mergedOf plan manualSlots).slots "phone" = some (some s)) := by
  intro plan manualSlots s hp
  have hslots : (mergedOf plan manualSlots).slots
      = normStep (spread (plan.getD basePlanDefault).slots manualSlots) := rfl
  constructor
  · intro n hn
    rw [hslots]
    simp only [normStep, hp]
    have hs : s ≠ "" := by
      intro he
      subst he
      rw [show normalizePhoneNumber "" = none from by decide] at hn
      exact absurd hn (by simp)
    rw [if_neg hs]
    simp only [hn]
    unfold setSlot
    rw [getSlot_cons, if_pos rfl]
  · intro hn
    rw [hslots]
    simp only [normStep, hp]
    by_cases hs : s = ""
    · rw [if_pos hs]
      exact hp
    · rw [if_neg hs]
      simp only [hn]
      exact hp

/-- Witness for C10: a raw `"5551234567"` phone override is replaced by its
canonical `"+15551234567"` form in the merged slots. -/
theorem C10_phone_never_dropped_witness :
    getSlot (mergedOf none [("phone", some "5551234567")]).slots "phone"
      = some (some "+15551234567") :=
  (C10_phone_never_dropped none [("phone", some "5551234567")] "5551234567"
    (by decide)).1 "+15551234567" (by decide)

/-- C9: on a successful provider response, the call route answers 200 with
`sid`/`status` taken from the payload (`status` defaulting to `"queued"` when
absent) plus the resolved `to` and `from`; and every error-branch result
carries `sid = null`. -/
theorem C9_call_success_shape :
    (∀ (env : CallEnv) (body : CallReqBody) (code : Nat) (payload : TwPayload),
      strTruthy env.accountSid = true → strTruthy env.authToken = true →
      strTruthy (body.toNumber.map jsTrim) = true →
      jsTrim (jsOrS body.callerFrom (jsOrS env.fromNumber "")) ≠ "" →
      callPOST env (.ok body) (.resp true code payload) =
        { httpStatus := 200, sid := twSid payload, status := twStatus payload
          toNumber := body.toNumber.map jsTrim
          callerFrom := some (jsTrim (jsOrS body.callerFrom (jsOrS env.fromNumber "")))
          error := none })
    ∧ (∀ sid st msg : Option String, twSid (.json sid st msg) = sid)
    ∧ (∀ sid msg : Option String, twStatus (.json sid none msg) = "queued")
    ∧ (∀ (sid msg : Option String) (st : String),
        twStatus (.json sid (some st) msg) = st)
    ∧ (∀ (env : CallEnv) (parse : ReqParse) (fetchR : TwFetch),
        (callPOST env parse fetchR).error ≠ none →
        (callPOST env parse fetchR).sid = none) := by
  refine ⟨?_, fun _ _ _ => rfl, fun _ _ => rfl, fun _ _ _ => rfl, ?_⟩
  · intro env body code payload h1 h2 h3 h4
    simp only [callPOST]
    rw [if_neg (by simp [h1, h2])]
    rw [if_neg (by simp [h3]), if_neg h4]
    simp
  · intro env parse fetchR
    simp only [callPOST]
    split
    · intro _
      rfl
    · split
      · intro _
        rfl
      · split
        · intro _
          rfl
        · split
          · intro _
            rfl
          · split
            · intro _
              rfl
            · split
              · intro _
                rfl
              · intro h
                exact absurd rfl h

/-- Witness for C9: a successful JSON payload with a `sid` and no `status`
yields 200/`"queued"`; the missing-credentials branch carries `sid = null`. -/
theorem C9_call_success_shape_witness :
    callPOST
      { accountSid := some "AC1", authToken := some "tok"
        fromNumber := some "+15550000000", voiceUrl := none }
      (.ok { toNumber := some "+15551234567", callerFrom := none, url := none })
      (.resp true 201 (.json (some "CA123") none none)) =
      { httpStatus := 200
        sid := twSid (.json (some "CA123") none none)
        status := twStatus (.json (some "CA123") none none)
        toNumber := (some "+15551234567" : Option String).map jsTrim
        callerFrom := some (jsTrim (jsOrS none (jsOrS (some "+15550000000") "")))
        error := none }
    ∧ (callPOST
        { accountSid := none, authToken := none, fromNumber := none, voiceUrl := none }
        (.ok { toNumber := some "+15551234567", callerFrom := none, url := none })
        (.thrown "net")).sid = none :=
  ⟨C9_call_success_shape.1
      { accountSid := some "AC1", authToken := some "tok"
        fromNumber := some "+15550000000", voiceUrl := none }
      { toNumber := some "+15551234567", callerFrom := none, url := none }
      201 (.json (some "CA123") none none)
      (by decide) (by decide) (by decide) (by decide),
   C9_call_success_shape.2.2.2.2
      { accountSid := none, authToken := none, fromNumber := none, voiceUrl := none }
      (.ok { toNumber := some "+15551234567", callerFrom := none, url := none })
      (.thrown "net") (by decide)⟩

/-- C1 (counterexample): the demo variant of the call route performs no
credentials check — with no provider configured, `to = ""` is answered with
`missing-destination` (HTTP 400), not `missing-credentials` (HTTP 500). -/
theorem C1_demo_no_credentials_check :
    demoPOST (.ok { toNumber := some "", callerFrom := none, url := none }) =
      { httpStatus := 400, sid := none, status := "missing-destination"
        toNumber := none, callerFrom := none
        error := some "Destination phone required." }
    ∧ ("missing-destination" : String) ≠ "missing-credentials"
    ∧ (400 : Nat) ≠ 500 := by
  decide

/-- C1 (amended): in the credentialed call route, every request with the
provider account identity or secret unconfigured yields the
missing-credentials error (HTTP 500), regardless of the request body: the
credentials check precedes the destination and source checks. -/
theorem C1_credentials_check_first :
    ∀ (env : CallEnv) (parse : ReqParse) (fetchR : TwFetch),
      strTruthy env.accountSid = false ∨ strTruthy env.authToken = false →
      callPOST env parse fetchR =
        { httpStatus := 500, sid := none, status := "missing-credentials"
          toNumber := none, callerFrom := none
          error := some "Twilio credentials are not configured." } := by
  intro env parse fetchR h
  simp only [callPOST]
  rcases h with h | h
  · rw [if_pos (Or.inl (by simp [h]))]
  · rw [if_pos (Or.inr (by simp [h]))]

/-- Witness for C1: `placeCall("", undefined)` with no provider configured
yields missing-credentials. -/
theorem C1_credentials_check_first_witness :
    callPOST
      { accountSid := none, authToken := none, fromNumber := none, voiceUrl := none }
      (.ok { toNumber := some "", callerFrom := none, url := none })
      (.thrown "unreachable") =
      { httpStatus := 500, sid := none, status := "missing-credentials"
        toNumber := none, callerFrom := none
        error := some "Twilio credentials are not configured." } :=
  C1_credentials_check_first _ _ _ (Or.inl (by decide))
